import Mathlib

/-!
Sound sources, sounds and the sensor stub: a shallow embedding of
`SFML/Audio/SoundSource.cpp`, `SFML/Audio/Sound.cpp` and
`SFML/Window/Win32/SensorImpl.cpp`.

Modelling conventions.

* `float` is embedded as `ℚ` (exact arithmetic); `0.01f` is `1 / 100`.
* The native audio API is an external library.  A native source is embedded as a
  record of its parameters (`ALSource`); `alSourcef`, `alSourcei`, `alSource3f`
  store the value they are given and `alGetSource*` read it back.  `alCheck` only
  reports errors and is transparent.
* Every object owns the handles it generated, so the handles are stored inside
  the object: `m_source` for the single handle, `m_sourcesLeft` / `m_sourcesRight`
  for `m_sources[Left]` / `m_sources[Right]`.
* Objects live in a `World`: sounds and sound buffers are addressed by a natural
  number (their address), `NULL` is `none`.
-/

namespace sf

/-! ## Native audio API -/

/-- Three-component vector of floats (`sf::Vector3f`). -/
structure Vector3f where
  x : ℚ
  y : ℚ
  z : ℚ
deriving DecidableEq

/-- State value `AL_INITIAL` of a native source (`al.h`). -/
def AL_INITIAL : Int := 0x1011
/-- State value `AL_PLAYING` of a native source (`al.h`). -/
def AL_PLAYING : Int := 0x1012
/-- State value `AL_PAUSED` of a native source (`al.h`). -/
def AL_PAUSED : Int := 0x1013
/-- State value `AL_STOPPED` of a native source (`al.h`). -/
def AL_STOPPED : Int := 0x1014

/-- Parameters of a native source that the wrapper reads or writes. -/
structure ALSource where
  buffer : Int
  pitch : ℚ
  gain : ℚ
  position : Vector3f
  sourceRelative : Int
  referenceDistance : ℚ
  rolloffFactor : ℚ
  looping : Int
  secOffset : ℚ
  sourceState : Int
deriving DecidableEq

/-- Float-valued parameter names used by the wrapper. -/
inductive ALenumF where
  | AL_PITCH
  | AL_GAIN
  | AL_REFERENCE_DISTANCE
  | AL_ROLLOFF_FACTOR
  | AL_SEC_OFFSET
deriving DecidableEq

/-- Integer-valued parameter names used by the wrapper. -/
inductive ALenumI where
  | AL_BUFFER
  | AL_SOURCE_RELATIVE
  | AL_LOOPING
  | AL_SOURCE_STATE
deriving DecidableEq

/-- A freshly generated source (`alGenSources`) with the native default values. -/
def alGenSource : ALSource :=
  { buffer := 0, pitch := 1, gain := 1, position := ⟨0, 0, 0⟩, sourceRelative := 0,
    referenceDistance := 1, rolloffFactor := 1, looping := 0, secOffset := 0,
    sourceState := AL_INITIAL }

/-- Native `alSourcef`: store a float parameter. -/
def alSourcef (s : ALSource) : ALenumF → ℚ → ALSource
  | .AL_PITCH, v => { s with pitch := v }
  | .AL_GAIN, v => { s with gain := v }
  | .AL_REFERENCE_DISTANCE, v => { s with referenceDistance := v }
  | .AL_ROLLOFF_FACTOR, v => { s with rolloffFactor := v }
  | .AL_SEC_OFFSET, v => { s with secOffset := v }

/-- Native `alGetSourcef`: read a float parameter. -/
def alGetSourcef (s : ALSource) : ALenumF → ℚ
  | .AL_PITCH => s.pitch
  | .AL_GAIN => s.gain
  | .AL_REFERENCE_DISTANCE => s.referenceDistance
  | .AL_ROLLOFF_FACTOR => s.rolloffFactor
  | .AL_SEC_OFFSET => s.secOffset

/-- Native `alSourcei`: store an integer parameter (the source state is read-only). -/
def alSourcei (s : ALSource) : ALenumI → Int → ALSource
  | .AL_BUFFER, v => { s with buffer := v }
  | .AL_SOURCE_RELATIVE, v => { s with sourceRelative := v }
  | .AL_LOOPING, v => { s with looping := v }
  | .AL_SOURCE_STATE, _ => s

/-- Native `alGetSourcei`: read an integer parameter. -/
def alGetSourcei (s : ALSource) : ALenumI → Int
  | .AL_BUFFER => s.buffer
  | .AL_SOURCE_RELATIVE => s.sourceRelative
  | .AL_LOOPING => s.looping
  | .AL_SOURCE_STATE => s.sourceState

/-- Native `alSource3f` on `AL_POSITION`. -/
def alSource3f_POSITION (s : ALSource) (x y z : ℚ) : ALSource :=
  { s with position := ⟨x, y, z⟩ }

/-- Native `alGetSource3f` on `AL_POSITION`. -/
def alGetSource3f_POSITION (s : ALSource) : Vector3f := s.position

/-- Native `alSourcePlay`. -/
def alSourcePlay (s : ALSource) : ALSource := { s with sourceState := AL_PLAYING }

/-- Native `alSourcePause`: only a playing source becomes paused. -/
def alSourcePause (s : ALSource) : ALSource :=
  if s.sourceState = AL_PLAYING then { s with sourceState := AL_PAUSED } else s

/-- Native `alSourceStop`: a no-op on an initial source, otherwise the source is stopped. -/
def alSourceStop (s : ALSource) : ALSource :=
  if s.sourceState = AL_INITIAL then s else { s with sourceState := AL_STOPPED }

/-- Conversion of a C++ `bool` to the `ALint` passed to `alSourcei`. -/
def boolToALint (b : Bool) : Int := if b then 1 else 0

/-! ## SoundSource -/

/-- Playback status (`SoundSource::Status`). -/
inductive Status where
  | Stopped
  | Paused
  | Playing
deriving DecidableEq

/-- Data members of `sf::SoundSource`, with the owned native sources stored in place. -/
structure SoundSource where
  m_doubleSource : Bool
  m_pan : ℚ
  m_source : ALSource
  m_sourcesLeft : ALSource
  m_sourcesRight : ALSource
deriving DecidableEq

namespace SoundSource

/-- Constructor `SoundSource::SoundSource(bool doubleSource)`. -/
def new (doubleSource : Bool) : SoundSource :=
  if doubleSource then
    { m_doubleSource := doubleSource, m_pan := 0, m_source := alGenSource,
      m_sourcesLeft := alSourcei alGenSource .AL_BUFFER 0,
      m_sourcesRight := alSourcei alGenSource .AL_BUFFER 0 }
  else
    { m_doubleSource := doubleSource, m_pan := 0, m_source := alGenSource,
      m_sourcesLeft := alGenSource, m_sourcesRight := alGenSource }

/-- The native handles the object owns: the single one, or Left and Right. -/
def handles (s : SoundSource) : List ALSource :=
  if s.m_doubleSource then [s.m_sourcesLeft, s.m_sourcesRight] else [s.m_source]

/-- Method `SoundSource::setPitch`. -/
def setPitch (s : SoundSource) (pitch : ℚ) : SoundSource :=
  if s.m_doubleSource then
    { s with m_sourcesLeft := alSourcef s.m_sourcesLeft .AL_PITCH pitch,
             m_sourcesRight := alSourcef s.m_sourcesRight .AL_PITCH pitch }
  else
    { s with m_source := alSourcef s.m_source .AL_PITCH pitch }

/-- The local lambda `clamp` of `SoundSource::setVolume`. -/
def clamp (x l r : ℚ) : ℚ :=
  if x < l then l else if x > r then r else x

/-- Method `SoundSource::setVolume`; the products `volume * 0.01f` and `left * v` are
exact rational products, the rounding of binary32 is not modelled. -/
def setVolume (s : SoundSource) (volume : ℚ) : SoundSource :=
  if s.m_doubleSource then
    let v := volume * (1 / 100)
    let left := clamp (1 - s.m_pan) 0 1
    let right := clamp (1 + s.m_pan) 0 1
    { s with m_sourcesLeft := alSourcef s.m_sourcesLeft .AL_GAIN (left * v),
             m_sourcesRight := alSourcef s.m_sourcesRight .AL_GAIN (right * v) }
  else
    { s with m_source := alSourcef s.m_source .AL_GAIN (volume * (1 / 100)) }

/-- Method `SoundSource::isRelativeToListener`. -/
def isRelativeToListener (s : SoundSource) : Bool :=
  let relative :=
    if s.m_doubleSource then alGetSourcei s.m_sourcesLeft .AL_SOURCE_RELATIVE
    else alGetSourcei s.m_source .AL_SOURCE_RELATIVE
  decide (relative ≠ 0)

/-- Method `SoundSource::setPosition(float x, float y, float z)`. -/
def setPosition (s : SoundSource) (x y z : ℚ) : SoundSource :=
  if s.m_doubleSource then
    if !s.isRelativeToListener then
      { s with m_sourcesLeft := alSource3f_POSITION s.m_sourcesLeft x y z,
               m_sourcesRight := alSource3f_POSITION s.m_sourcesRight x y z }
    else s
  else
    { s with m_source := alSource3f_POSITION s.m_source x y z }

/-- Method `SoundSource::setPosition(const Vector3f& position)`. -/
def setPositionV (s : SoundSource) (position : Vector3f) : SoundSource :=
  s.setPosition position.x position.y position.z

/-- Method `SoundSource::setRelativeToListener`. -/
def setRelativeToListener (s : SoundSource) (relative : Bool) : SoundSource :=
  if s.m_doubleSource then
    let l := alSourcei s.m_sourcesLeft .AL_SOURCE_RELATIVE (boolToALint relative)
    let r := alSourcei s.m_sourcesRight .AL_SOURCE_RELATIVE (boolToALint relative)
    if relative then
      { s with m_sourcesLeft := alSource3f_POSITION l (-1) 0 0,
               m_sourcesRight := alSource3f_POSITION r 1 0 0 }
    else
      { s with m_sourcesLeft := l, m_sourcesRight := r }
  else
    { s with m_source := alSourcei s.m_source .AL_SOURCE_RELATIVE (boolToALint relative) }

/-- Method `SoundSource::setMinDistance`. -/
def setMinDistance (s : SoundSource) (distance : ℚ) : SoundSource :=
  if s.m_doubleSource then
    { s with m_sourcesLeft := alSourcef s.m_sourcesLeft .AL_REFERENCE_DISTANCE distance,
             m_sourcesRight := alSourcef s.m_sourcesRight .AL_REFERENCE_DISTANCE distance }
  else
    { s with m_source := alSourcef s.m_source .AL_REFERENCE_DISTANCE distance }

/-- Method `SoundSource::setAttenuation`. -/
def setAttenuation (s : SoundSource) (attenuation : ℚ) : SoundSource :=
  if s.m_doubleSource then
    { s with m_sourcesLeft := alSourcef s.m_sourcesLeft .AL_ROLLOFF_FACTOR attenuation,
             m_sourcesRight := alSourcef s.m_sourcesRight .AL_ROLLOFF_FACTOR attenuation }
  else
    { s with m_source := alSourcef s.m_source .AL_ROLLOFF_FACTOR attenuation }

/-- Method `SoundSource::setPan`; its `assert(m_doubleSource)` is a precondition of the call. -/
def setPan (s : SoundSource) (pan : ℚ) : SoundSource :=
  { s with m_pan := pan }

/-- Method `SoundSource::getPan`. -/
def getPan (s : SoundSource) : ℚ := s.m_pan

/-- Method `SoundSource::getPitch`. -/
def getPitch (s : SoundSource) : ℚ :=
  if s.m_doubleSource then alGetSourcef s.m_sourcesLeft .AL_PITCH
  else alGetSourcef s.m_source .AL_PITCH

/-- Method `SoundSource::getVolume`; `(gain + gain2) / 2.f` and `gain * 100.f` are exact
rational operations, the rounding of binary32 is not modelled. -/
def getVolume (s : SoundSource) : ℚ :=
  let gain :=
    if s.m_doubleSource then
      (alGetSourcef s.m_sourcesLeft .AL_GAIN + alGetSourcef s.m_sourcesRight .AL_GAIN) / 2
    else alGetSourcef s.m_source .AL_GAIN
  gain * 100

/-- Method `SoundSource::getPosition`. -/
def getPosition (s : SoundSource) : Vector3f :=
  if s.m_doubleSource then alGetSource3f_POSITION s.m_sourcesLeft
  else alGetSource3f_POSITION s.m_source

/-- Method `SoundSource::getMinDistance`. -/
def getMinDistance (s : SoundSource) : ℚ :=
  if s.m_doubleSource then alGetSourcef s.m_sourcesLeft .AL_REFERENCE_DISTANCE
  else alGetSourcef s.m_source .AL_REFERENCE_DISTANCE

/-- Method `SoundSource::getAttenuation`. -/
def getAttenuation (s : SoundSource) : ℚ :=
  if s.m_doubleSource then alGetSourcef s.m_sourcesLeft .AL_ROLLOFF_FACTOR
  else alGetSourcef s.m_source .AL_ROLLOFF_FACTOR

/-- The `switch` of `SoundSource::getStatus` on a native state value. -/
def statusOf (status : Int) : Status :=
  if status = AL_INITIAL then Status.Stopped
  else if status = AL_STOPPED then Status.Stopped
  else if status = AL_PAUSED then Status.Paused
  else if status = AL_PLAYING then Status.Playing
  else Status.Stopped

/-- Method `SoundSource::getStatus`. -/
def getStatus (s : SoundSource) : Status :=
  let status :=
    if s.m_doubleSource then alGetSourcei s.m_sourcesLeft .AL_SOURCE_STATE
    else alGetSourcei s.m_source .AL_SOURCE_STATE
  statusOf status

end SoundSource

/-! ## Sound, SoundBuffer and the object world -/

/-- Data members of `sf::Sound`: the `SoundSource` base and the buffer pointer. -/
structure Sound extends SoundSource where
  m_buffer : Option Nat
deriving DecidableEq

/-- The members of `sf::SoundBuffer` that `Sound` uses: the native buffer name and the
set of attached sounds (addresses of `Sound` objects). -/
structure SoundBuffer where
  m_buffer : Nat
  m_sounds : Finset Nat
deriving DecidableEq

/-- The objects of a program state: the `Sound` stored at each address, whether a
`Sound` is currently constructed there, and the `SoundBuffer` at each address. -/
structure World where
  sounds : Nat → Sound
  live : Nat → Bool
  buffers : Nat → SoundBuffer

namespace World

/-- Run a `SoundSource` member function on the object at address `this`. -/
def updSource (w : World) (this : Nat) (f : SoundSource → SoundSource) : World :=
  { w with sounds := fun p =>
      if p = this then { w.sounds p with toSoundSource := f (w.sounds p).toSoundSource }
      else w.sounds p }

/-- Run a `Sound` member function that only touches the object at address `this`. -/
def updSound (w : World) (this : Nat) (f : Sound → Sound) : World :=
  { w with sounds := fun p => if p = this then f (w.sounds p) else w.sounds p }

/-- Modelled from the spec: `SoundBuffer::attachSound`, whose file is absent; it inserts
the sound into the attached-sound set of the buffer. -/
def attachSound (w : World) (buffer sound : Nat) : World :=
  { w with buffers := fun b =>
      if b = buffer then { w.buffers b with m_sounds := insert sound (w.buffers b).m_sounds }
      else w.buffers b }

/-- Modelled from the spec: `SoundBuffer::detachSound`, whose file is absent; it erases
the sound from the attached-sound set of the buffer. -/
def detachSound (w : World) (buffer sound : Nat) : World :=
  { w with buffers := fun b =>
      if b = buffer then { w.buffers b with m_sounds := (w.buffers b).m_sounds.erase sound }
      else w.buffers b }

/-- A state with no constructed sound, where no buffer has an attached sound;
`names` gives the native name of each buffer. -/
def init (names : Nat → Nat) : World :=
  { sounds := fun _ => { toSoundSource := SoundSource.new false, m_buffer := none },
    live := fun _ => false,
    buffers := fun b => { m_buffer := names b, m_sounds := ∅ } }

end World

namespace SoundSource

/-- Copy constructor `SoundSource::SoundSource(const SoundSource& copy)`. -/
def copy (c : SoundSource) : SoundSource :=
  let s : SoundSource :=
    if c.m_doubleSource then
      { m_doubleSource := c.m_doubleSource, m_pan := c.m_pan, m_source := alGenSource,
        m_sourcesLeft := alSourcei alGenSource .AL_BUFFER 0,
        m_sourcesRight := alSourcei alGenSource .AL_BUFFER 0 }
    else
      { m_doubleSource := c.m_doubleSource, m_pan := c.m_pan,
        m_source := alSourcei alGenSource .AL_BUFFER 0,
        m_sourcesLeft := alGenSource, m_sourcesRight := alGenSource }
  let s := s.setPitch c.getPitch
  let s := s.setVolume c.getVolume
  let s := s.setPositionV c.getPosition
  let s := s.setRelativeToListener c.isRelativeToListener
  let s := s.setMinDistance c.getMinDistance
  s.setAttenuation c.getAttenuation

/-- Assignment `SoundSource::operator=`, run on the object at `this` with the object at
`right` as argument; each getter reads `right` in the state reached so far, so the
two addresses may coincide. -/
def assign (w : World) (this right : Nat) : World :=
  let w := w.updSource this (fun s => s.setPitch (w.sounds right).getPitch)
  let w := w.updSource this (fun s => s.setVolume (w.sounds right).getVolume)
  let w := w.updSource this (fun s => s.setPositionV (w.sounds right).getPosition)
  let w := w.updSource this
    (fun s => s.setRelativeToListener (w.sounds right).isRelativeToListener)
  let w := w.updSource this (fun s => s.setMinDistance (w.sounds right).getMinDistance)
  w.updSource this (fun s => s.setAttenuation (w.sounds right).getAttenuation)

/-- Destructor `SoundSource::~SoundSource`: the buffer of every owned source is
cleared before the sources are deleted. -/
def destroy (s : SoundSource) : SoundSource :=
  if s.m_doubleSource then
    { s with m_sourcesLeft := alSourcei s.m_sourcesLeft .AL_BUFFER 0,
             m_sourcesRight := alSourcei s.m_sourcesRight .AL_BUFFER 0 }
  else
    { s with m_source := alSourcei s.m_source .AL_BUFFER 0 }

end SoundSource

namespace Sound

/-- Method `Sound::play`. -/
def play (s : Sound) : Sound :=
  if s.m_doubleSource then
    { s with m_sourcesLeft := alSourcePlay s.m_sourcesLeft,
             m_sourcesRight := alSourcePlay s.m_sourcesRight }
  else
    { s with m_source := alSourcePlay s.m_source }

/-- Method `Sound::pause`. -/
def pause (s : Sound) : Sound :=
  if s.m_doubleSource then
    { s with m_sourcesLeft := alSourcePause s.m_sourcesLeft,
             m_sourcesRight := alSourcePause s.m_sourcesRight }
  else
    { s with m_source := alSourcePause s.m_source }

/-- Method `Sound::stop`. -/
def stop (s : Sound) : Sound :=
  if s.m_doubleSource then
    { s with m_sourcesLeft := alSourceStop s.m_sourcesLeft,
             m_sourcesRight := alSourceStop s.m_sourcesRight }
  else
    { s with m_source := alSourceStop s.m_source }

/-- Method `Sound::setLoop`. -/
def setLoop (s : Sound) (loop : Bool) : Sound :=
  if s.m_doubleSource then
    { s with m_sourcesLeft := alSourcei s.m_sourcesLeft .AL_LOOPING (boolToALint loop),
             m_sourcesRight := alSourcei s.m_sourcesRight .AL_LOOPING (boolToALint loop) }
  else
    { s with m_source := alSourcei s.m_source .AL_LOOPING (boolToALint loop) }

/-- Method `Sound::setPlayingOffset`, with the offset given in seconds. -/
def setPlayingOffset (s : Sound) (seconds : ℚ) : Sound :=
  if s.m_doubleSource then
    { s with m_sourcesLeft := alSourcef s.m_sourcesLeft .AL_SEC_OFFSET seconds,
             m_sourcesRight := alSourcef s.m_sourcesRight .AL_SEC_OFFSET seconds }
  else
    { s with m_source := alSourcef s.m_source .AL_SEC_OFFSET seconds }

/-- Method `Sound::getBuffer`. -/
def getBuffer (s : Sound) : Option Nat := s.m_buffer

/-- Method `Sound::getLoop`. -/
def getLoop (s : Sound) : Bool :=
  let loop :=
    if s.m_doubleSource then alGetSourcei s.m_sourcesLeft .AL_LOOPING
    else alGetSourcei s.m_source .AL_LOOPING
  decide (loop ≠ 0)

/-- Method `Sound::getPlayingOffset`, in seconds. -/
def getPlayingOffset (s : Sound) : ℚ :=
  if s.m_doubleSource then alGetSourcef s.m_sourcesLeft .AL_SEC_OFFSET
  else alGetSourcef s.m_source .AL_SEC_OFFSET

/-- Method `Sound::getStatus`. -/
def getStatus (s : Sound) : Status := s.toSoundSource.getStatus

/-- The mode switch that `Sound::setBuffer` and `Sound::resetBuffer` share: store the
native buffer name `name` in `AL_BUFFER` of every owned source. -/
def bindBuffer (s : Sound) (name : Int) : Sound :=
  if s.m_doubleSource then
    { s with m_sourcesLeft := alSourcei s.m_sourcesLeft .AL_BUFFER name,
             m_sourcesRight := alSourcei s.m_sourcesRight .AL_BUFFER name }
  else
    { s with m_source := alSourcei s.m_source .AL_BUFFER name }

/-- Method `Sound::setBuffer`, run on the object at `this` with the buffer at `buffer`. -/
def setBuffer (w : World) (this buffer : Nat) : World :=
  let w :=
    match (w.sounds this).m_buffer with
    | some old => (w.updSound this stop).detachSound old this
    | none => w
  let w := w.updSound this (fun s => { s with m_buffer := some buffer })
  let w := w.attachSound buffer this
  w.updSound this (fun s => s.bindBuffer ((w.buffers buffer).m_buffer : Int))

/-- Method `Sound::resetBuffer`, run on the object at `this`. -/
def resetBuffer (w : World) (this : Nat) : World :=
  let w := w.updSound this stop
  match (w.sounds this).m_buffer with
  | some old =>
    let w := w.updSound this (fun s => s.bindBuffer 0)
    let w := w.detachSound old this
    w.updSound this (fun s => { s with m_buffer := none })
  | none => w

/-- Assignment `Sound::operator=`, run on the object at `this` with the object at
`right` as argument; the two addresses may coincide. -/
def assign (w : World) (this right : Nat) : World :=
  let w := SoundSource.assign w this right
  let w :=
    match (w.sounds this).m_buffer with
    | some old =>
      let w := w.updSound this stop
      let w := w.detachSound old this
      w.updSound this (fun s => { s with m_buffer := none })
    | none => w
  let w :=
    match (w.sounds right).m_buffer with
    | some b => setBuffer w this b
    | none => w
  w.updSound this (fun s => s.setLoop (w.sounds right).getLoop)

/-- Constructor `Sound::Sound(bool doubleSource)`, building the object at `this`. -/
def new (w : World) (this : Nat) (doubleSource : Bool) : World :=
  { w with
    sounds := fun p =>
      if p = this then { toSoundSource := SoundSource.new doubleSource, m_buffer := none }
      else w.sounds p
    live := fun p => if p = this then true else w.live p }

/-- Constructor `Sound::Sound(bool doubleSource, const SoundBuffer& buffer)`. -/
def newWithBuffer (w : World) (this : Nat) (doubleSource : Bool) (buffer : Nat) : World :=
  setBuffer (new w this doubleSource) this buffer

/-- Copy constructor `Sound::Sound(const Sound& copy)`, building the object at `this`. -/
def copy (w : World) (this c : Nat) : World :=
  let w : World :=
    { w with
      sounds := fun p =>
        if p = this then
          { toSoundSource := SoundSource.copy (w.sounds c).toSoundSource, m_buffer := none }
        else w.sounds p
      live := fun p => if p = this then true else w.live p }
  let w :=
    match (w.sounds c).m_buffer with
    | some b => setBuffer w this b
    | none => w
  w.updSound this (fun s => s.setLoop (w.sounds c).getLoop)

/-- Destructor `Sound::~Sound` followed by the base destructor; afterwards no `Sound`
is constructed at `this`. -/
def destroy (w : World) (this : Nat) : World :=
  let w := w.updSound this stop
  let w :=
    match (w.sounds this).m_buffer with
    | some old => w.detachSound old this
    | none => w
  let w := w.updSource this SoundSource.destroy
  { w with live := fun p => if p = this then false else w.live p }

end Sound

/-! ## SensorImpl (Win32) -/

/-- Sensor kinds (`Sensor::Type`, declared in `Sensor.hpp`); the backend ignores the
argument. -/
inductive SensorType where
  | Accelerometer
  | Gyroscope
  | Magnetometer
  | Gravity
  | UserAcceleration
  | Orientation
deriving DecidableEq

/-- The state of the Win32 sensor backend: the file defines no data the methods touch. -/
structure SensorImpl where
deriving DecidableEq

namespace SensorImpl

/-- Static method `SensorImpl::initialize`. -/
def initialise (s : SensorImpl) : SensorImpl := s

/-- Static method `SensorImpl::cleanup`. -/
def cleanup (s : SensorImpl) : SensorImpl := s

/-- Static method `SensorImpl::isAvailable`. -/
def isAvailable (_s : SensorImpl) (_sensor : SensorType) : Bool := false

/-- Method `SensorImpl::open`: the returned flag and the state afterwards. -/
def open_ (s : SensorImpl) (_sensor : SensorType) : Bool × SensorImpl := (false, s)

/-- Method `SensorImpl::close`. -/
def close (s : SensorImpl) : SensorImpl := s

/-- Method `SensorImpl::update`: the returned vector and the state afterwards. -/
def update (s : SensorImpl) : Vector3f × SensorImpl := (⟨0, 0, 0⟩, s)

/-- Method `SensorImpl::setEnabled`. -/
def setEnabled (s : SensorImpl) (_enabled : Bool) : SensorImpl := s

/-- A call of one of the state-changing entry points of the backend. -/
inductive Call where
  | initialise
  | cleanup
  | open_ (sensor : SensorType)
  | close
  | setEnabled (enabled : Bool)

/-- Run one call. -/
def step (s : SensorImpl) : Call → SensorImpl
  | .initialise => s.initialise
  | .cleanup => s.cleanup
  | .open_ sensor => (s.open_ sensor).2
  | .close => s.close
  | .setEnabled enabled => s.setEnabled enabled

/-- Run a sequence of calls, first to last. -/
def run (s : SensorImpl) (calls : List Call) : SensorImpl := calls.foldl step s

end SensorImpl

/-! ## Call sequences, example states and invariants -/

/-- A call of `setPan` or `setVolume`. -/
inductive PanVolCall where
  | setPan (pan : ℚ)
  | setVolume (volume : ℚ)

/-- Run one `setPan` / `setVolume` call. -/
def SoundSource.call (s : SoundSource) : PanVolCall → SoundSource
  | .setPan pan => s.setPan pan
  | .setVolume volume => s.setVolume volume

/-- Run a sequence of `setPan` / `setVolume` calls, first to last. -/
def SoundSource.runCalls (s : SoundSource) (calls : List PanVolCall) : SoundSource :=
  calls.foldl SoundSource.call s

/-- The argument of the most recent `setPan` in `calls`, or `p0` if there is none. -/
def lastPan (p0 : ℚ) (calls : List PanVolCall) : ℚ :=
  calls.foldl (fun p c => match c with
    | .setPan pan => pan
    | .setVolume _ => p) p0

/-- The argument of the most recent `setVolume` in `calls`, if there is one. -/
def lastVolume (calls : List PanVolCall) : Option ℚ :=
  calls.foldl (fun v c => match c with
    | .setPan _ => v
    | .setVolume volume => some volume) none

/-- The bookkeeping invariant: a sound is in the attached set of a buffer exactly when it
is a constructed sound whose `getBuffer()` is that buffer. -/
def AttachInv (w : World) : Prop :=
  ∀ s b : Nat, s ∈ (w.buffers b).m_sounds ↔ (w.live s = true ∧ (w.sounds s).getBuffer = some b)

/-- The constructors and members of `Sound` that touch the attach bookkeeping. -/
inductive SoundOp where
  | new (this : Nat) (doubleSource : Bool)
  | newWithBuffer (this : Nat) (doubleSource : Bool) (buffer : Nat)
  | copy (this c : Nat)
  | setBuffer (this buffer : Nat)
  | resetBuffer (this : Nat)
  | assign (this right : Nat)
  | destroy (this : Nat)

/-- When a call is well-formed: a constructor runs where no sound is constructed, every
other member runs on constructed sounds. -/
def SoundOp.enabled (w : World) : SoundOp → Bool
  | .new this _ => !w.live this
  | .newWithBuffer this _ _ => !w.live this
  | .copy this c => !w.live this && w.live c
  | .setBuffer this _ => w.live this
  | .resetBuffer this => w.live this
  | .assign this right => w.live this && w.live right
  | .destroy this => w.live this

/-- Run a call. -/
def SoundOp.run (w : World) : SoundOp → World
  | .new this doubleSource => Sound.new w this doubleSource
  | .newWithBuffer this doubleSource buffer => Sound.newWithBuffer w this doubleSource buffer
  | .copy this c => Sound.copy w this c
  | .setBuffer this buffer => Sound.setBuffer w this buffer
  | .resetBuffer this => Sound.resetBuffer w this
  | .assign this right => Sound.assign w this right
  | .destroy this => Sound.destroy w this

/-- The safety property of the bookkeeping: whenever a handle owned by a constructed
sound has a non-zero `AL_BUFFER` equal to the native name of a buffer, the sound is in
the attached set of that buffer. -/
def BufferKnown (w : World) : Prop :=
  ∀ s b : Nat, w.live s = true → ∀ h ∈ (w.sounds s).handles,
    alGetSourcei h .AL_BUFFER ≠ 0 →
    alGetSourcei h .AL_BUFFER = ((w.buffers b).m_buffer : Int) →
    s ∈ (w.buffers b).m_sounds

/-- A single-source sound at address 0 built on the buffer at address 0 (native name 7)
and a single-source sound without buffer at address 1. -/
def twoSounds : World :=
  Sound.new (Sound.newWithBuffer (World.init (fun b => b + 7)) 0 false 0) 1 false

/-- A double-source sound at address 0 built on the buffer at address 3, looping. -/
def loopingSound : World :=
  (Sound.newWithBuffer (World.init (fun b => b + 7)) 0 true 3).updSound 0
    (fun s => s.setLoop true)

/-- A double-source object that has been made relative to the listener. -/
def relativeDouble : SoundSource := (SoundSource.new true).setRelativeToListener true

/-! ## The native store: reading after writing -/

@[simp]
theorem alGetSourcef_alSourcef (s : ALSource) (p q : ALenumF) (v : ℚ) :
    alGetSourcef (alSourcef s p v) q = if p = q then v else alGetSourcef s q := by
  cases p <;> cases q <;> rfl

@[simp]
theorem alGetSourcei_alSourcef (s : ALSource) (p : ALenumF) (q : ALenumI) (v : ℚ) :
    alGetSourcei (alSourcef s p v) q = alGetSourcei s q := by
  cases p <;> cases q <;> rfl

@[simp]
theorem alGetPosition_alSourcef (s : ALSource) (p : ALenumF) (v : ℚ) :
    alGetSource3f_POSITION (alSourcef s p v) = alGetSource3f_POSITION s := by
  cases p <;> rfl

@[simp]
theorem alGetSourcef_alSourcei (s : ALSource) (p : ALenumI) (q : ALenumF) (v : Int) :
    alGetSourcef (alSourcei s p v) q = alGetSourcef s q := by
  cases p <;> cases q <;> rfl

@[simp]
theorem alGetSourcei_alSourcei (s : ALSource) (p q : ALenumI) (v : Int) :
    alGetSourcei (alSourcei s p v) q =
      if p = q ∧ p ≠ ALenumI.AL_SOURCE_STATE then v else alGetSourcei s q := by
  cases p <;> cases q <;> rfl

@[simp]
theorem alGetPosition_alSourcei (s : ALSource) (p : ALenumI) (v : Int) :
    alGetSource3f_POSITION (alSourcei s p v) = alGetSource3f_POSITION s := by
  cases p <;> rfl

@[simp]
theorem alGetSourcef_alSource3f (s : ALSource) (q : ALenumF) (x y z : ℚ) :
    alGetSourcef (alSource3f_POSITION s x y z) q = alGetSourcef s q := by
  cases q <;> rfl

@[simp]
theorem alGetSourcei_alSource3f (s : ALSource) (q : ALenumI) (x y z : ℚ) :
    alGetSourcei (alSource3f_POSITION s x y z) q = alGetSourcei s q := by
  cases q <;> rfl

@[simp]
theorem alGetPosition_alSource3f (s : ALSource) (x y z : ℚ) :
    alGetSource3f_POSITION (alSource3f_POSITION s x y z) = ⟨x, y, z⟩ := rfl

@[simp]
theorem boolToALint_true : boolToALint true = 1 := rfl

@[simp]
theorem boolToALint_false : boolToALint false = 0 := rfl

@[simp]
theorem alGetSourcef_alGenSource (q : ALenumF) :
    alGetSourcef alGenSource q = if q = ALenumF.AL_SEC_OFFSET then 0 else 1 := by
  cases q <;> rfl

@[simp]
theorem alGetSourcei_alGenSource (q : ALenumI) :
    alGetSourcei alGenSource q = if q = ALenumI.AL_SOURCE_STATE then AL_INITIAL else 0 := by
  cases q <;> rfl

@[simp]
theorem alGetPosition_alGenSource :
    alGetSource3f_POSITION alGenSource = ⟨0, 0, 0⟩ := rfl

/-! ## Parameter accessors -/

/-- C3: in both modes each of `setPitch`, `setMinDistance`, `setAttenuation`,
`setRelativeToListener` and `Sound::setLoop` stores the given value in the
corresponding native parameter of every owned handle, and the matching getter called
right afterwards returns that value. -/
theorem setters_fan_out (s : Sound) (v : ℚ) (b : Bool) :
    ((∀ h ∈ (s.toSoundSource.setPitch v).handles, alGetSourcef h .AL_PITCH = v) ∧
      (s.toSoundSource.setPitch v).getPitch = v) ∧
    ((∀ h ∈ (s.toSoundSource.setMinDistance v).handles,
        alGetSourcef h .AL_REFERENCE_DISTANCE = v) ∧
      (s.toSoundSource.setMinDistance v).getMinDistance = v) ∧
    ((∀ h ∈ (s.toSoundSource.setAttenuation v).handles,
        alGetSourcef h .AL_ROLLOFF_FACTOR = v) ∧
      (s.toSoundSource.setAttenuation v).getAttenuation = v) ∧
    ((∀ h ∈ (s.toSoundSource.setRelativeToListener b).handles,
        alGetSourcei h .AL_SOURCE_RELATIVE = boolToALint b) ∧
      (s.toSoundSource.setRelativeToListener b).isRelativeToListener = b) ∧
    ((∀ h ∈ (s.setLoop b).handles, alGetSourcei h .AL_LOOPING = boolToALint b) ∧
      (s.setLoop b).getLoop = b) := by
  obtain ⟨⟨d, p, m, l, r⟩, mb⟩ := s
  cases d <;> cases b <;>
    simp [SoundSource.setPitch, SoundSource.setMinDistance, SoundSource.setAttenuation,
      SoundSource.setRelativeToListener, Sound.setLoop, SoundSource.handles,
      SoundSource.getPitch, SoundSource.getMinDistance, SoundSource.getAttenuation,
      SoundSource.isRelativeToListener, Sound.getLoop, alSourcef, alGetSourcef, alSourcei,
      alGetSourcei, alSource3f_POSITION, boolToALint]

/-- Witness of `setters_fan_out`: a double-source sound, pitch `3 / 2`. -/
theorem setters_fan_out_witness :
    (∀ h ∈ ((SoundSource.new true).setPitch (3 / 2)).handles,
        alGetSourcef h .AL_PITCH = 3 / 2) ∧
      ((SoundSource.new true).setPitch (3 / 2)).getPitch = 3 / 2 :=
  (setters_fan_out ⟨SoundSource.new true, none⟩ (3 / 2) true).1

/-! ## getStatus -/

/-- C10: `getStatus` maps the native state of the single handle (mono) or of the Left
handle (double-source): `AL_INITIAL` and `AL_STOPPED` give `Stopped`, `AL_PAUSED` gives
`Paused`, `AL_PLAYING` gives `Playing`, any other integer gives `Stopped`;
`Sound::getStatus` is `SoundSource::getStatus`, and replacing the Right handle does not
change the result. -/
theorem getStatus_total_mapping (s : Sound) (st : Int)
    (hst : st = if s.m_doubleSource then s.m_sourcesLeft.sourceState
      else s.m_source.sourceState) :
    (st = AL_INITIAL ∨ st = AL_STOPPED → s.toSoundSource.getStatus = Status.Stopped) ∧
    (st = AL_PAUSED → s.toSoundSource.getStatus = Status.Paused) ∧
    (st = AL_PLAYING → s.toSoundSource.getStatus = Status.Playing) ∧
    (st ≠ AL_INITIAL → st ≠ AL_STOPPED → st ≠ AL_PAUSED → st ≠ AL_PLAYING →
      s.toSoundSource.getStatus = Status.Stopped) ∧
    s.getStatus = s.toSoundSource.getStatus ∧
    (∀ r : ALSource, ({ s with m_sourcesRight := r } : Sound).getStatus = s.getStatus) := by
  have hs : s.toSoundSource.getStatus = SoundSource.statusOf st := by
    rw [hst]; unfold SoundSource.getStatus
    cases s.m_doubleSource <;> simp [alGetSourcei]
  refine ⟨?_, ?_, ?_, ?_, rfl, ?_⟩
  · rintro (h | h) <;> rw [hs, h] <;> decide
  · intro h; rw [hs, h]; decide
  · intro h; rw [hs, h]; decide
  · intro h1 h2 h3 h4; rw [hs]; simp [SoundSource.statusOf, h1, h2, h3, h4]
  · intro r; rfl

/-- Witness of `getStatus_total_mapping`: a double-source sound paused on both handles. -/
theorem getStatus_total_mapping_witness :
    (Sound.pause (Sound.play ⟨SoundSource.new true, none⟩)).getStatus = Status.Paused :=
  ((getStatus_total_mapping (Sound.pause (Sound.play ⟨SoundSource.new true, none⟩))
    AL_PAUSED (by decide)).2.1 rfl)

/-! ## Sensor backend -/

/-- C8: for every sensor type, after any sequence of `initialize`, `cleanup`, `open`,
`close` and `setEnabled` calls, `isAvailable` returns false, `open` returns false and
`update` returns the vector `(0, 0, 0)`. -/
theorem sensor_stub_constant (s : SensorImpl) (calls : List SensorImpl.Call)
    (sensor : SensorType) :
    (s.run calls).isAvailable sensor = false ∧
    ((s.run calls).open_ sensor).1 = false ∧
    ((s.run calls).update).1 = ⟨0, 0, 0⟩ :=
  ⟨rfl, rfl, rfl⟩

/-! ## setPosition -/

/-- C7, as stated, fails: on a double-source object that is relative to the listener
`setPosition(5, 5, 5)` leaves the Left handle at `(-1, 0, 0)` and the Right one at
`(1, 0, 0)`, and `getPosition` returns `(-1, 0, 0)`. -/
theorem setPosition_skipped_when_relative :
    (relativeDouble.setPosition 5 5 5).getPosition = ⟨-1, 0, 0⟩ ∧
    (relativeDouble.setPosition 5 5 5).getPosition ≠ ⟨5, 5, 5⟩ ∧
    (relativeDouble.setPosition 5 5 5).handles.map alGetSource3f_POSITION =
      [⟨-1, 0, 0⟩, ⟨1, 0, 0⟩] := by
  refine ⟨?_, ?_, ?_⟩ <;>
    simp [relativeDouble, SoundSource.new, SoundSource.setRelativeToListener,
      SoundSource.setPosition, SoundSource.isRelativeToListener, SoundSource.getPosition,
      SoundSource.handles, alSourcei, alGetSourcei, alSource3f_POSITION,
      alGetSource3f_POSITION, alGenSource, boolToALint]

/-- C7, amended: in single-source mode, and in double-source mode when the object is not
relative to the listener, after `setPosition(x, y, z)` every owned handle has position
`(x, y, z)` and `getPosition` returns `(x, y, z)`; in double-source mode when the object
is relative to the listener `setPosition` changes nothing. -/
theorem setPosition_direct_unless_relative_double (s : SoundSource) (x y z : ℚ) :
    ((s.m_doubleSource = false ∨ s.isRelativeToListener = false) →
      (∀ h ∈ (s.setPosition x y z).handles, alGetSource3f_POSITION h = ⟨x, y, z⟩) ∧
      (s.setPosition x y z).getPosition = ⟨x, y, z⟩) ∧
    ((s.m_doubleSource = true ∧ s.isRelativeToListener = true) →
      s.setPosition x y z = s) := by
  obtain ⟨d, p, m, l, r⟩ := s
  constructor
  · intro h
    cases d
    · simp [SoundSource.setPosition, SoundSource.handles, SoundSource.getPosition,
        alSource3f_POSITION, alGetSource3f_POSITION]
    · have h' : SoundSource.isRelativeToListener ⟨true, p, m, l, r⟩ = false := by
        simpa using h
      simp [SoundSource.setPosition, SoundSource.handles, SoundSource.getPosition,
        alSource3f_POSITION, alGetSource3f_POSITION, h']
  · rintro ⟨hd, hr⟩
    simp only at hd
    subst hd
    simp [SoundSource.setPosition, hr]

/-- Witness of `setPosition_direct_unless_relative_double`: a fresh double-source object. -/
theorem setPosition_direct_unless_relative_double_witness :
    (∀ h ∈ ((SoundSource.new true).setPosition 5 6 7).handles,
        alGetSource3f_POSITION h = ⟨5, 6, 7⟩) ∧
      ((SoundSource.new true).setPosition 5 6 7).getPosition = ⟨5, 6, 7⟩ :=
  (setPosition_direct_unless_relative_double (SoundSource.new true) 5 6 7).1
    (Or.inr (by decide))

/-! ## Volume and pan -/

/-- Sum of the two pan factors when the pan lies in `[-1, 1]`. -/
theorem clamp_sum_of_abs_le_one (p : ℚ) (hp : |p| ≤ 1) :
    SoundSource.clamp (1 - p) 0 1 + SoundSource.clamp (1 + p) 0 1 = 2 - |p| := by
  have h := abs_le.mp hp
  unfold SoundSource.clamp
  rcases le_total 0 p with h0 | h0
  · rw [abs_of_nonneg h0]
    rcases eq_or_lt_of_le h0 with h1 | h1
    · subst h1; norm_num
    · rw [if_neg (by linarith), if_neg (by linarith), if_neg (by linarith),
        if_pos (by linarith)]
      ring
  · rw [abs_of_nonpos h0]
    rcases eq_or_lt_of_le h0 with h1 | h1
    · subst h1; norm_num
    · rw [if_neg (by linarith), if_pos (by linarith), if_neg (by linarith),
        if_neg (by linarith)]
      ring

/-- The pan factors sum to `2` only for pan `0`. -/
theorem clamp_sum_eq_two_iff (p : ℚ) :
    SoundSource.clamp (1 - p) 0 1 + SoundSource.clamp (1 + p) 0 1 = 2 ↔ p = 0 := by
  constructor
  · intro h
    unfold SoundSource.clamp at h
    split_ifs at h <;> linarith
  · rintro rfl
    norm_num [SoundSource.clamp]

/-- C9: over exact arithmetic, `getVolume` right after `setVolume(v)` returns `v` in
single-source mode; in double-source mode with pan `p` it returns
`v * (clamp(1 - p, 0, 1) + clamp(1 + p, 0, 1)) / 2`, which is `v * (2 - |p|) / 2` when
`|p| ≤ 1`, and it returns `v` for every `v` exactly when `p = 0`. -/
theorem getVolume_after_setVolume (s : SoundSource) (v : ℚ) :
    (s.m_doubleSource = false → (s.setVolume v).getVolume = v) ∧
    (s.m_doubleSource = true →
      (s.setVolume v).getVolume =
        v * (SoundSource.clamp (1 - s.m_pan) 0 1 + SoundSource.clamp (1 + s.m_pan) 0 1) / 2 ∧
      (|s.m_pan| ≤ 1 → (s.setVolume v).getVolume = v * (2 - |s.m_pan|) / 2) ∧
      ((∀ u : ℚ, (s.setVolume u).getVolume = u) ↔ s.m_pan = 0)) := by
  obtain ⟨d, p, m, l, r⟩ := s
  have key : ∀ u : ℚ, (SoundSource.setVolume ⟨true, p, m, l, r⟩ u).getVolume =
      u * (SoundSource.clamp (1 - p) 0 1 + SoundSource.clamp (1 + p) 0 1) / 2 := by
    intro u
    simp [SoundSource.setVolume, SoundSource.getVolume, alSourcef, alGetSourcef]
    ring
  constructor
  · intro hd
    simp only at hd
    subst hd
    simp [SoundSource.setVolume, SoundSource.getVolume, alSourcef, alGetSourcef]
  · intro hd
    simp only at hd
    subst hd
    refine ⟨key v, ?_, ?_⟩
    · intro hp
      rw [key v, clamp_sum_of_abs_le_one p hp]
    · constructor
      · intro h
        have h1 := h 1
        rw [key 1] at h1
        exact (clamp_sum_eq_two_iff p).mp (by linarith)
      · intro hp u
        rw [key u, (clamp_sum_eq_two_iff p).mpr hp]
        ring

/-- Witness of `getVolume_after_setVolume`: a double-source object with pan `1 / 2`. -/
theorem getVolume_after_setVolume_witness :
    (((SoundSource.new true).setPan (1 / 2)).setVolume 80).getVolume =
      80 * (2 - |((SoundSource.new true).setPan (1 / 2)).m_pan|) / 2 :=
  ((getVolume_after_setVolume ((SoundSource.new true).setPan (1 / 2)) 80).2 rfl).2.1
    (by norm_num [SoundSource.setPan, SoundSource.new, abs_le])

/-- The mode is fixed by the constructor: no call sequence changes it. -/
theorem runCalls_doubleSource (calls : List PanVolCall) (s : SoundSource) :
    (s.runCalls calls).m_doubleSource = s.m_doubleSource := by
  induction calls generalizing s with
  | nil => rfl
  | cons c cs ih =>
    have h : (s.call c).m_doubleSource = s.m_doubleSource := by
      cases c
      · rfl
      · simp only [SoundSource.call, SoundSource.setVolume]
        split_ifs <;> rfl
    exact (ih (s.call c)).trans h

/-- The stored pan after a call sequence is the argument of the most recent `setPan`. -/
theorem runCalls_pan (calls : List PanVolCall) (s : SoundSource) :
    (s.runCalls calls).m_pan = lastPan s.m_pan calls := by
  induction calls generalizing s with
  | nil => rfl
  | cons c cs ih =>
    have h := ih (s.call c)
    cases c with
    | setPan pan => exact h
    | setVolume volume =>
      have hp : (s.setVolume volume).m_pan = s.m_pan := by
        simp only [SoundSource.setVolume]
        split_ifs <;> rfl
      simp only [SoundSource.call, hp] at h
      exact h

/-- A run of `setPan` calls touches no native handle. -/
theorem runCalls_setPan_handles (pans : List ℚ) (s : SoundSource) :
    (s.runCalls (pans.map PanVolCall.setPan)).m_sourcesLeft = s.m_sourcesLeft ∧
    (s.runCalls (pans.map PanVolCall.setPan)).m_sourcesRight = s.m_sourcesRight := by
  induction pans generalizing s with
  | nil => exact ⟨rfl, rfl⟩
  | cons p ps ih => exact ih (s.setPan p)

/-- C4, as stated, fails: after `setVolume(100)` then `setPan(1)` on a fresh
double-source object the current pan is `1`, so the claimed Left gain is `0`, but the
Left gain is still `1`. -/
theorem setPan_does_not_update_gains :
    lastPan 0 [.setVolume 100, .setPan 1] = 1 ∧
    lastVolume [.setVolume 100, .setPan 1] = some 100 ∧
    ((SoundSource.new true).runCalls [.setVolume 100, .setPan 1]).getPan = 1 ∧
    ((SoundSource.new true).runCalls [.setVolume 100, .setPan 1]).m_sourcesLeft.gain = 1 ∧
    ((SoundSource.new true).runCalls [.setVolume 100, .setPan 1]).m_sourcesLeft.gain ≠
      SoundSource.clamp (1 - 1) 0 1 * 100 / 100 := by
  refine ⟨rfl, rfl, rfl, ?_, ?_⟩ <;>
    norm_num [SoundSource.runCalls, SoundSource.call, SoundSource.new, SoundSource.setVolume,
      SoundSource.setPan, SoundSource.clamp, alSourcef, alSourcei, alGenSource]

/-- C4, amended: on a double-source object, after any calls `pre`, then `setVolume(v)`,
then any number of `setPan` calls, the Left gain is `clamp(1 - p, 0, 1) * v / 100` and
the Right gain is `clamp(1 + p, 0, 1) * v / 100`, where `p` is the pan in force when
`setVolume(v)` ran: the argument of the last `setPan` of `pre`, or the pan the object
had before (0 after construction) if there is none.  So `p = 0` gives `v / 100` on both
handles, `p ≥ 1` silences Left and `p ≤ -1` silences Right. -/
theorem gains_after_setVolume (s : SoundSource) (hd : s.m_doubleSource = true)
    (pre : List PanVolCall) (v : ℚ) (post : List ℚ) :
    (SoundSource.new true).m_pan = 0 ∧
    (s.runCalls (pre ++ .setVolume v :: post.map .setPan)).m_sourcesLeft.gain =
      SoundSource.clamp (1 - lastPan s.m_pan pre) 0 1 * v / 100 ∧
    (s.runCalls (pre ++ .setVolume v :: post.map .setPan)).m_sourcesRight.gain =
      SoundSource.clamp (1 + lastPan s.m_pan pre) 0 1 * v / 100 ∧
    (lastPan s.m_pan pre = 0 →
      (s.runCalls (pre ++ .setVolume v :: post.map .setPan)).m_sourcesLeft.gain = v / 100 ∧
      (s.runCalls (pre ++ .setVolume v :: post.map .setPan)).m_sourcesRight.gain = v / 100) ∧
    (1 ≤ lastPan s.m_pan pre →
      (s.runCalls (pre ++ .setVolume v :: post.map .setPan)).m_sourcesLeft.gain = 0) ∧
    (lastPan s.m_pan pre ≤ -1 →
      (s.runCalls (pre ++ .setVolume v :: post.map .setPan)).m_sourcesRight.gain = 0) := by
  have hrun : s.runCalls (pre ++ .setVolume v :: post.map .setPan) =
      (((s.runCalls pre).setVolume v).runCalls (post.map .setPan)) := by
    simp [SoundSource.runCalls, List.foldl_append, SoundSource.call]
  have hd' := (runCalls_doubleSource pre s).trans hd
  have hp := runCalls_pan pre s
  obtain ⟨hl, hr⟩ := runCalls_setPan_handles post ((s.runCalls pre).setVolume v)
  have hL : (s.runCalls (pre ++ .setVolume v :: post.map .setPan)).m_sourcesLeft.gain =
      SoundSource.clamp (1 - lastPan s.m_pan pre) 0 1 * v / 100 := by
    rw [hrun, hl, ← hp]
    simp [SoundSource.setVolume, hd', alSourcef]
    ring
  have hR : (s.runCalls (pre ++ .setVolume v :: post.map .setPan)).m_sourcesRight.gain =
      SoundSource.clamp (1 + lastPan s.m_pan pre) 0 1 * v / 100 := by
    rw [hrun, hr, ← hp]
    simp [SoundSource.setVolume, hd', alSourcef]
    ring
  refine ⟨by simp [SoundSource.new], hL, hR, ?_, ?_, ?_⟩
  · intro h0
    rw [hL, hR, h0]
    norm_num [SoundSource.clamp]
  · intro h1
    rw [hL]
    have : SoundSource.clamp (1 - lastPan s.m_pan pre) 0 1 = 0 := by
      unfold SoundSource.clamp
      split_ifs <;> linarith
    rw [this]; ring
  · intro h1
    rw [hR]
    have : SoundSource.clamp (1 + lastPan s.m_pan pre) 0 1 = 0 := by
      unfold SoundSource.clamp
      split_ifs <;> linarith
    rw [this]; ring

/-- Witness of `gains_after_setVolume`: `setPan(1)`, `setVolume(50)`, `setVolume(100)`,
then `setPan(-1)` on a fresh double-source object leave the Left handle silent. -/
theorem gains_after_setVolume_witness :
    ((SoundSource.new true).runCalls
      ([.setPan 1, .setVolume 50] ++ .setVolume 100 :: [-1].map .setPan)).m_sourcesLeft.gain
      = 0 :=
  (gains_after_setVolume (SoundSource.new true) rfl [.setPan 1, .setVolume 50] 100
    [-1]).2.2.2.2.1 (by norm_num [lastPan])

/-! ## SoundSource assignment -/

@[simp]
theorem updSound_live (w : World) (t : Nat) (f : Sound → Sound) :
    (w.updSound t f).live = w.live := rfl

@[simp]
theorem updSound_buffers (w : World) (t : Nat) (f : Sound → Sound) :
    (w.updSound t f).buffers = w.buffers := rfl

@[simp]
theorem updSound_sounds (w : World) (t : Nat) (f : Sound → Sound) (s : Nat) :
    (w.updSound t f).sounds s = if s = t then f (w.sounds s) else w.sounds s := rfl

@[simp]
theorem updSource_live (w : World) (t : Nat) (f : SoundSource → SoundSource) :
    (w.updSource t f).live = w.live := rfl

@[simp]
theorem updSource_buffers (w : World) (t : Nat) (f : SoundSource → SoundSource) :
    (w.updSource t f).buffers = w.buffers := rfl

@[simp]
theorem updSource_m_buffer (w : World) (t : Nat) (f : SoundSource → SoundSource)
    (s : Nat) : ((w.updSource t f).sounds s).m_buffer = (w.sounds s).m_buffer := by
  unfold World.updSource
  by_cases h : s = t <;> simp [h]

@[simp]
theorem attachSound_live (w : World) (b t : Nat) :
    (w.attachSound b t).live = w.live := rfl

@[simp]
theorem attachSound_sounds (w : World) (b t : Nat) :
    (w.attachSound b t).sounds = w.sounds := rfl

@[simp]
theorem attachSound_m_sounds (w : World) (b t b' : Nat) :
    ((w.attachSound b t).buffers b').m_sounds =
      if b' = b then insert t (w.buffers b').m_sounds else (w.buffers b').m_sounds := by
  unfold World.attachSound
  by_cases h : b' = b <;> simp [h]

@[simp]
theorem attachSound_m_buffer (w : World) (b t b' : Nat) :
    ((w.attachSound b t).buffers b').m_buffer = (w.buffers b').m_buffer := by
  unfold World.attachSound
  by_cases h : b' = b <;> simp [h]

@[simp]
theorem detachSound_live (w : World) (b t : Nat) :
    (w.detachSound b t).live = w.live := rfl

@[simp]
theorem detachSound_sounds (w : World) (b t : Nat) :
    (w.detachSound b t).sounds = w.sounds := rfl

@[simp]
theorem detachSound_m_sounds (w : World) (b t b' : Nat) :
    ((w.detachSound b t).buffers b').m_sounds =
      if b' = b then (w.buffers b').m_sounds.erase t else (w.buffers b').m_sounds := by
  unfold World.detachSound
  by_cases h : b' = b <;> simp [h]

@[simp]
theorem detachSound_m_buffer (w : World) (b t b' : Nat) :
    ((w.detachSound b t).buffers b').m_buffer = (w.buffers b').m_buffer := by
  unfold World.detachSound
  by_cases h : b' = b <;> simp [h]

@[simp]
theorem stop_m_buffer (s : Sound) : s.stop.m_buffer = s.m_buffer := by
  simp only [Sound.stop]; split_ifs <;> rfl

@[simp]
theorem bindBuffer_m_buffer (s : Sound) (n : Int) :
    (s.bindBuffer n).m_buffer = s.m_buffer := by
  simp only [Sound.bindBuffer]; split_ifs <;> rfl

@[simp]
theorem setLoop_m_buffer (s : Sound) (b : Bool) :
    (s.setLoop b).m_buffer = s.m_buffer := by
  simp only [Sound.setLoop]; split_ifs <;> rfl

/-- A step that changes no buffer pointer, no attached set and no liveness keeps the
invariant. -/
theorem attachInv_frame (w w' : World) (hl : w'.live = w.live)
    (hs : ∀ s, (w'.sounds s).m_buffer = (w.sounds s).m_buffer)
    (hb : ∀ b, (w'.buffers b).m_sounds = (w.buffers b).m_sounds) (h : AttachInv w) :
    AttachInv w' := by
  intro s b
  simp only [Sound.getBuffer, hl, hs, hb]
  exact h s b

/-- No sound is constructed and no sound is attached in the initial state. -/
theorem attachInv_init (names : Nat → Nat) : AttachInv (World.init names) := by
  intro s b
  simp [World.init]

/-- The detach step shared by `operator=` and `resetBuffer`: leave the held buffer and
clear the pointer. -/
theorem attachInv_detach (w : World) (t old : Nat) (f : Sound → Sound)
    (hold : (w.sounds t).m_buffer = some old) (h : AttachInv w) :
    AttachInv ((((w.updSound t f).detachSound old t)).updSound t
      (fun s => { s with m_buffer := none })) := by
  intro s b
  have hsb := h s b
  simp only [Sound.getBuffer] at hsb ⊢
  simp only [updSound_live, updSound_buffers, updSound_sounds, detachSound_live,
    detachSound_sounds, detachSound_m_sounds]
  by_cases hst : s = t
  · subst hst
    simp only [if_true]
    by_cases hb : b = old
    · subst hb; simp
    · simp only [if_neg hb, hsb, hold]
      simp [Ne.symm hb]
  · simp only [if_neg hst]
    by_cases hb : b = old
    · subst hb; simp [hst, hsb]
    · simp only [if_neg hb, hsb]

/-- Method `Sound::setBuffer` keeps the invariant, also when the buffer is already held. -/
theorem attachInv_setBuffer (w : World) (t b : Nat) (hl : w.live t = true)
    (h : AttachInv w) : AttachInv (Sound.setBuffer w t b) := by
  intro s b'
  have hsb := h s b'
  have htb := h t
  simp only [Sound.getBuffer] at hsb htb ⊢
  unfold Sound.setBuffer
  cases hold : (w.sounds t).m_buffer with
  | none =>
    simp only [updSound_live, updSound_buffers, updSound_sounds, attachSound_live,
      attachSound_sounds, attachSound_m_sounds, bindBuffer_m_buffer]
    by_cases hst : s = t
    · subst hst
      by_cases hb : b' = b
      · subst hb; simp [hl]
      · simp [hb, hsb, hold, Ne.symm hb]
    · by_cases hb : b' = b
      · subst hb; simp [hst, hsb]
      · simp [hst, hb, hsb]
  | some old =>
    simp only [updSound_live, updSound_buffers, updSound_sounds, attachSound_live,
      attachSound_sounds, attachSound_m_sounds, detachSound_live, detachSound_sounds,
      detachSound_m_sounds, bindBuffer_m_buffer]
    by_cases hst : s = t
    · subst hst
      by_cases hb : b' = b
      · subst hb; simp [hl]
      · by_cases hbo : b' = old
        · subst hbo; simp [hb, Ne.symm hb]
        · simp [hb, hbo, hsb, hold, Ne.symm hb, Ne.symm hbo]
    · by_cases hb : b' = b
      · subst hb
        by_cases hbo : b' = old
        · subst hbo; simp [hst, hsb]
        · simp [hst, hbo, hsb]
      · by_cases hbo : b' = old
        · subst hbo; simp [hst, hb, hsb]
        · simp [hst, hb, hbo, hsb]

/-- Method `Sound::resetBuffer` keeps the invariant. -/
theorem attachInv_resetBuffer (w : World) (t : Nat) (h : AttachInv w) :
    AttachInv (Sound.resetBuffer w t) := by
  have hstop : AttachInv (w.updSound t Sound.stop) :=
    attachInv_frame w _ rfl (fun s => by by_cases hst : s = t <;> simp [hst]) (fun b => rfl) h
  unfold Sound.resetBuffer
  cases hold : (w.sounds t).m_buffer with
  | none =>
    have h1 : ((w.updSound t Sound.stop).sounds t).m_buffer = none := by simp [hold]
    simp only [h1]
    exact hstop
  | some old =>
    have h1 : ((w.updSound t Sound.stop).sounds t).m_buffer = some old := by simp [hold]
    simp only [h1]
    exact attachInv_detach (w.updSound t Sound.stop) t old (fun s => s.bindBuffer 0) h1 hstop

/-- Building an object with a null buffer pointer where none is constructed keeps the
invariant. -/
theorem attachInv_construct (w : World) (t : Nat) (obj : Sound) (hobj : obj.m_buffer = none)
    (hl : w.live t = false) (h : AttachInv w) :
    AttachInv { w with
      sounds := fun p => if p = t then obj else w.sounds p
      live := fun p => if p = t then true else w.live p } := by
  intro s b
  have hsb := h s b
  simp only [Sound.getBuffer] at hsb ⊢
  by_cases hst : s = t
  · subst hst
    simp [hobj, hsb, hl]
  · simp [hst, hsb]

/-- Assignment `SoundSource::operator=` touches no liveness flag. -/
theorem sourceAssign_live (w : World) (t r : Nat) :
    (SoundSource.assign w t r).live = w.live := rfl

/-- Assignment `SoundSource::operator=` touches no buffer. -/
theorem sourceAssign_buffers (w : World) (t r : Nat) :
    (SoundSource.assign w t r).buffers = w.buffers := rfl

/-- Assignment `SoundSource::operator=` touches no buffer pointer. -/
theorem sourceAssign_m_buffer (w : World) (t r s : Nat) :
    ((SoundSource.assign w t r).sounds s).m_buffer = (w.sounds s).m_buffer := by
  simp only [SoundSource.assign, updSource_m_buffer]

/-- Method `Sound::setBuffer` touches no liveness flag. -/
theorem setBuffer_live (w : World) (t b : Nat) : (Sound.setBuffer w t b).live = w.live := by
  unfold Sound.setBuffer
  cases (w.sounds t).m_buffer <;> rfl

/-- The tail shared by `operator=` and the copy constructor: take the buffer of the
other object, if it has one, then copy its loop flag. -/
theorem attachInv_takeBuffer (w : World) (t r : Nat) (hl : w.live t = true)
    (h : AttachInv w) :
    AttachInv
      ((match (w.sounds r).m_buffer with
          | some b => Sound.setBuffer w t b
          | none => w).updSound t
        (fun s => s.setLoop
          ((match (w.sounds r).m_buffer with
            | some b => Sound.setBuffer w t b
            | none => w).sounds r).getLoop)) := by
  have h3 : AttachInv (match (w.sounds r).m_buffer with
      | some b => Sound.setBuffer w t b
      | none => w) := by
    cases (w.sounds r).m_buffer with
    | none => exact h
    | some b => exact attachInv_setBuffer w t b hl h
  generalize (match (w.sounds r).m_buffer with
      | some b => Sound.setBuffer w t b
      | none => w) = w3 at h3 ⊢
  exact attachInv_frame w3 _ rfl (fun s => by by_cases hst : s = t <;> simp [hst])
    (fun b => rfl) h3

/-- Assignment `Sound::operator=` keeps the invariant, also when both operands are the same object. -/
theorem attachInv_assign (w : World) (t r : Nat) (hl : w.live t = true) (h : AttachInv w) :
    AttachInv (Sound.assign w t r) := by
  have h1 : AttachInv (SoundSource.assign w t r) :=
    attachInv_frame w _ (sourceAssign_live w t r) (sourceAssign_m_buffer w t r)
      (fun b => by rw [sourceAssign_buffers]) h
  have hl1 : (SoundSource.assign w t r).live t = true := by rw [sourceAssign_live]; exact hl
  unfold Sound.assign
  generalize SoundSource.assign w t r = w1 at h1 hl1 ⊢
  cases hold : (w1.sounds t).m_buffer with
  | none =>
    simp only [hold]
    exact attachInv_takeBuffer w1 t r hl1 h1
  | some old =>
    simp only [hold]
    exact attachInv_takeBuffer _ t r hl1 (attachInv_detach w1 t old Sound.stop hold h1)

/-- The constructor `Sound(bool)` keeps the invariant. -/
theorem attachInv_new (w : World) (t : Nat) (d : Bool) (hl : w.live t = false)
    (h : AttachInv w) : AttachInv (Sound.new w t d) :=
  attachInv_construct w t _ rfl hl h

/-- The constructor `Sound(bool, const SoundBuffer&)` keeps the invariant. -/
theorem attachInv_newWithBuffer (w : World) (t : Nat) (d : Bool) (b : Nat)
    (hl : w.live t = false) (h : AttachInv w) : AttachInv (Sound.newWithBuffer w t d b) :=
  attachInv_setBuffer _ t b (by simp [Sound.new]) (attachInv_new w t d hl h)

/-- The copy constructor keeps the invariant. -/
theorem attachInv_copy (w : World) (t c : Nat) (hl : w.live t = false) (h : AttachInv w) :
    AttachInv (Sound.copy w t c) :=
  attachInv_takeBuffer _ t c (by simp)
    (attachInv_construct w t
      { toSoundSource := SoundSource.copy (w.sounds c).toSoundSource, m_buffer := none }
      rfl hl h)

/-- The destructor keeps the invariant and leaves the sound in no attached set. -/
theorem attachInv_destroy (w : World) (t : Nat) (h : AttachInv w) :
    AttachInv (Sound.destroy w t) ∧ ∀ b, t ∉ ((Sound.destroy w t).buffers b).m_sounds := by
  have key : ∀ s b, s ∈ ((Sound.destroy w t).buffers b).m_sounds ↔
      (s ≠ t ∧ s ∈ (w.buffers b).m_sounds) := by
    intro s b
    have hsb := h s b
    have htb := h t b
    simp only [Sound.getBuffer] at hsb htb
    unfold Sound.destroy
    cases hold : (w.sounds t).m_buffer with
    | none =>
      have h1 : ((w.updSound t Sound.stop).sounds t).m_buffer = none := by simp [hold]
      simp only [h1, updSource_buffers, updSound_buffers]
      by_cases hst : s = t
      · subst hst; simp [htb, hold]
      · simp [hst]
    | some old =>
      have h1 : ((w.updSound t Sound.stop).sounds t).m_buffer = some old := by simp [hold]
      simp only [h1, updSource_buffers, updSound_buffers, detachSound_m_sounds]
      by_cases hst : s = t
      · subst hst
        by_cases hb : b = old
        · subst hb; simp
        · simp [hb, htb, hold, Ne.symm hb]
      · by_cases hb : b = old
        · subst hb; simp [hst]
        · simp [hst, hb]
  have hlive : ∀ s, (Sound.destroy w t).live s = if s = t then false else w.live s := by
    intro s
    unfold Sound.destroy
    cases hold : (w.sounds t).m_buffer with
    | none =>
      have h1 : ((w.updSound t Sound.stop).sounds t).m_buffer = none := by simp [hold]
      simp only [h1]
      rfl
    | some old =>
      have h1 : ((w.updSound t Sound.stop).sounds t).m_buffer = some old := by simp [hold]
      simp only [h1]
      rfl
  have hbuf : ∀ s, s ≠ t → ((Sound.destroy w t).sounds s).m_buffer = (w.sounds s).m_buffer := by
    intro s hst
    unfold Sound.destroy
    cases hold : (w.sounds t).m_buffer with
    | none =>
      have h1 : ((w.updSound t Sound.stop).sounds t).m_buffer = none := by simp [hold]
      simp only [h1]
      simp [hst]
    | some old =>
      have h1 : ((w.updSound t Sound.stop).sounds t).m_buffer = some old := by simp [hold]
      simp only [h1]
      simp [hst]
  constructor
  · intro s b
    rw [key s b, hlive s]
    by_cases hst : s = t
    · subst hst; simp
    · simp only [Sound.getBuffer, hbuf s hst, if_neg hst]
      have hsb := h s b
      simp only [Sound.getBuffer] at hsb
      simp [hst, hsb]
  · intro b hb
    exact ((key t b).mp hb).1 rfl

/-- C1: the attached-sound sets mirror `getBuffer()`: a sound is in the attached set of
a buffer if and only if it is a constructed sound whose `getBuffer()` is that buffer.
This holds in the initial state, is preserved by every `Sound` constructor, by
`setBuffer` (also with the buffer already held), `resetBuffer`, `operator=` and the
destructor, and after the destructor the destroyed sound is in no attached set. -/
theorem attached_iff_getBuffer (w : World) (op : SoundOp) (hinv : AttachInv w)
    (hen : op.enabled w = true) :
    (∀ names, AttachInv (World.init names)) ∧
    AttachInv (op.run w) ∧
    (∀ this, op = SoundOp.destroy this → ∀ b, this ∉ ((op.run w).buffers b).m_sounds) := by
  refine ⟨attachInv_init, ?_, ?_⟩
  · cases op with
    | new t d => exact attachInv_new w t d (by simpa [SoundOp.enabled] using hen) hinv
    | newWithBuffer t d b =>
      exact attachInv_newWithBuffer w t d b (by simpa [SoundOp.enabled] using hen) hinv
    | copy t c =>
      exact attachInv_copy w t c (by simp [SoundOp.enabled] at hen; exact hen.1) hinv
    | setBuffer t b => exact attachInv_setBuffer w t b hen hinv
    | resetBuffer t => exact attachInv_resetBuffer w t hinv
    | assign t r =>
      exact attachInv_assign w t r (by simp [SoundOp.enabled] at hen; exact hen.1) hinv
    | destroy t => exact (attachInv_destroy w t hinv).1
  · rintro this rfl b
    exact (attachInv_destroy w this hinv).2 b

/-- Witness of `attached_iff_getBuffer`: setting the buffer a sound already holds. -/
theorem attached_iff_getBuffer_witness :
    AttachInv ((SoundOp.setBuffer 0 3).run (Sound.newWithBuffer (World.init id) 0 true 3)) :=
  (attached_iff_getBuffer (Sound.newWithBuffer (World.init id) 0 true 3) (.setBuffer 0 3)
    (attachInv_newWithBuffer (World.init id) 0 true 3 rfl (attachInv_init id)) (by decide)).2.1

/-! ## Sound assignment -/

/-- Before the assignment every handle with a buffer belongs to an attached sound. -/
theorem twoSounds_bufferKnown : BufferKnown twoSounds := by
  intro s b hl h hh hne heq
  have hlive : s = 0 ∨ s = 1 := by
    have : twoSounds.live s = (if s = 1 then true else if s = 0 then true else false) := by
      simp [twoSounds, Sound.new, Sound.newWithBuffer, setBuffer_live, World.init]
    rw [this] at hl
    by_cases h1 : s = 1
    · exact Or.inr h1
    · by_cases h0 : s = 0
      · exact Or.inl h0
      · simp [h1, h0] at hl
  have hname : (twoSounds.buffers b).m_buffer = b + 7 := by
    simp [twoSounds, Sound.new, Sound.newWithBuffer, Sound.setBuffer, World.init]
  rcases hlive with rfl | rfl
  · have hh0 : (twoSounds.sounds 0).handles = [alSourcei alGenSource .AL_BUFFER 7] := by
      decide
    rw [hh0, List.mem_singleton] at hh
    subst hh
    rw [hname] at heq
    have hb : b = 0 := by
      simp at heq
      omega
    subst hb
    decide
  · have hh1 : (twoSounds.sounds 1).handles = [alGenSource] := by decide
    rw [hh1, List.mem_singleton] at hh
    subst hh
    exact absurd rfl hne

/-- C2 fails on the code: after `a = c`, where `a` holds a buffer with native name 7 and
`c` holds none, the handle of `a` still has `AL_BUFFER` 7 but `a` is no longer in the
attached set of that buffer, although the property held before the assignment. -/
theorem assign_leaves_stale_buffer :
    BufferKnown twoSounds ∧
    (Sound.assign twoSounds 0 1).live 0 = true ∧
    ((Sound.assign twoSounds 0 1).buffers 0).m_buffer = 7 ∧
    ((Sound.assign twoSounds 0 1).sounds 0).handles.map (alGetSourcei · .AL_BUFFER) = [7] ∧
    0 ∉ ((Sound.assign twoSounds 0 1).buffers 0).m_sounds ∧
    ((Sound.assign twoSounds 0 1).sounds 0).getBuffer = none ∧
    ¬ BufferKnown (Sound.assign twoSounds 0 1) := by
  refine ⟨twoSounds_bufferKnown, by decide, by decide, by decide, by decide, by decide, ?_⟩
  intro h
  exact absurd (h 0 0 (by decide) _ (List.mem_singleton.mpr rfl) (by decide) (by decide))
    (by decide)

/-- C6 fails on the code: assigning a sound that holds the buffer at address 3 to itself
leaves `getBuffer()` null and the sound detached, while its loop flag is kept. -/
theorem self_assign_drops_buffer :
    (loopingSound.sounds 0).getBuffer = some 3 ∧
    (loopingSound.sounds 0).getLoop = true ∧
    ((Sound.assign loopingSound 0 0).sounds 0).getBuffer = none ∧
    ((Sound.assign loopingSound 0 0).sounds 0).getLoop = true ∧
    0 ∉ ((Sound.assign loopingSound 0 0).buffers 3).m_sounds := by
  decide

@[simp]
theorem getLoop_setLoop (s : Sound) (b : Bool) : (s.setLoop b).getLoop = b := by
  obtain ⟨⟨d, p, m, l, r⟩, mb⟩ := s
  cases d <;> cases b <;> simp [Sound.setLoop, Sound.getLoop]

/-- Method `Sound::setBuffer` leaves the held buffer pointer set to its argument. -/
theorem setBuffer_getBuffer (w : World) (t b : Nat) :
    ((Sound.setBuffer w t b).sounds t).getBuffer = some b := by
  unfold Sound.setBuffer
  cases (w.sounds t).m_buffer <;> simp [Sound.getBuffer]

/-- Method `Sound::setBuffer` leaves every other sound alone. -/
theorem setBuffer_other (w : World) (t b r : Nat) (h : r ≠ t) :
    (Sound.setBuffer w t b).sounds r = w.sounds r := by
  unfold Sound.setBuffer
  cases (w.sounds t).m_buffer <;> simp [h]

/-- Between two distinct sounds `left = right` gives left the buffer pointer and the loop
flag of right. -/
theorem assign_distinct_buffer_loop (w : World) (t r : Nat) (h : t ≠ r) :
    ((Sound.assign w t r).sounds t).getBuffer = (w.sounds r).getBuffer ∧
    ((Sound.assign w t r).sounds t).getLoop = (w.sounds r).getLoop := by
  have hr : (SoundSource.assign w t r).sounds r = w.sounds r := by
    simp [SoundSource.assign, World.updSource, Ne.symm h]
  unfold Sound.assign
  generalize SoundSource.assign w t r = w1 at hr ⊢
  have key : ∀ w2 : World, w2.sounds r = w.sounds r → (w2.sounds t).m_buffer = none →
      (((match (w2.sounds r).m_buffer with
          | some b => Sound.setBuffer w2 t b
          | none => w2).updSound t
        (fun s => s.setLoop
          ((match (w2.sounds r).m_buffer with
            | some b => Sound.setBuffer w2 t b
            | none => w2).sounds r).getLoop)).sounds t).getBuffer = (w.sounds r).getBuffer ∧
      (((match (w2.sounds r).m_buffer with
          | some b => Sound.setBuffer w2 t b
          | none => w2).updSound t
        (fun s => s.setLoop
          ((match (w2.sounds r).m_buffer with
            | some b => Sound.setBuffer w2 t b
            | none => w2).sounds r).getLoop)).sounds t).getLoop = (w.sounds r).getLoop := by
    intro w2 h2 hn
    rw [h2]
    cases hb : (w.sounds r).m_buffer with
    | none => simp [Sound.getBuffer, hn, hb, h2]
    | some b =>
      have := setBuffer_getBuffer w2 t b
      simp only [Sound.getBuffer] at this
      simp [Sound.getBuffer, hb, this, setBuffer_other w2 t b r (Ne.symm h), h2]
  cases hold : (w1.sounds t).m_buffer with
  | none =>
    simp only [hold]
    exact key w1 hr hold
  | some old =>
    simp only [hold]
    exact key _ (by simp [Ne.symm h, hr]) (by simp)

end sf
